import Mathlib

/-!
Saga orchestrator: order placement over inventory, payment and shipping.

A shallow embedding of the four services of the repository:

* `src/inventory-service/server.js`: the `stock` object with `/reserve` and `/release`;
* `src/payment-service/server.js`: the `balance` object with `/charge` and `/refund`;
* `src/shipping-service/server.js`: `/ship`;
* `src/order-service/server.js`: the `orders` table and the `/create-order` handler.

The handler is an `async` function made of a `try` block of five awaited calls and a
`catch` block holding a nested `try` of three awaited calls. Every awaited call either
resolves or rejects; a rejection leaves the enclosing `try` at once. The handler is
embedded over an arbitrary backend (any state type, any outcome of every call), and the
run is observed through its trace: the calls issued, in order, each with its outcome, and
the responses sent. `console.log` and `console.error` lines are not observed.

JavaScript numbers are embedded as integers (exact for doubles up to 2^53) together with
`undefined` (the value of a missing key) and `NaN`; keys are the strings the request
fields convert to, and only own properties of the two objects are read. The `created_at`
column of `orders` is not embedded: no statement of the handler reads it. Sending the
response (`res.status(..).send(..)`) is taken not to throw.
-/

namespace Saga

/-! ## Values of the two in-memory objects -/

/-- A value read from `stock[k]` or `balance[k]`: a number, `NaN`, or `undefined`
when the object has no key `k`. -/
inductive JSVal where
  | undefined
  | nan
  | num (n : Int)
  deriving DecidableEq, Repr

namespace JSVal

/-- The comparison `v > 0` of `/reserve`: `undefined` converts to `NaN`, and a
comparison with `NaN` is false. -/
def gtZero : JSVal → Bool
  | num n => decide (n > 0)
  | _ => false

/-- The comparison `v >= 100` of `/charge`. -/
def geHundred : JSVal → Bool
  | num n => decide (n ≥ 100)
  | _ => false

/-- The value stored by `v--`. -/
def dec : JSVal → JSVal
  | num n => num (n - 1)
  | _ => nan

/-- The value stored by `v++`. -/
def inc : JSVal → JSVal
  | num n => num (n + 1)
  | _ => nan

/-- The value stored by `v -= 100`. -/
def subHundred : JSVal → JSVal
  | num n => num (n - 100)
  | _ => nan

/-- The value stored by `v += 100`. -/
def addHundred : JSVal → JSVal
  | num n => num (n + 100)
  | _ => nan

end JSVal

/-- A plain object with string keys, as its list of own properties. -/
abbrev JSObject := List (String × JSVal)

/-- The read `obj[k]`. -/
def JSObject.get : JSObject → String → JSVal
  | [], _ => JSVal.undefined
  | (k, v) :: rest, key => if k = key then v else JSObject.get rest key

/-- The write `obj[k] = v`: an existing key keeps its place, a new key is added last. -/
def JSObject.set : JSObject → String → JSVal → JSObject
  | [], key, v => [(key, v)]
  | (k, w) :: rest, key, v =>
    if k = key then (k, v) :: rest else (k, w) :: JSObject.set rest key v

/-! ## Inventory service -/

namespace Inventory

/-- The handler of `POST /reserve`: the HTTP status sent and the new `stock`. -/
def reserve (productId : String) (stock : JSObject) : Nat × JSObject :=
  if (stock.get productId).gtZero then
    (200, stock.set productId (stock.get productId).dec)
  else
    (400, stock)

/-- The handler of `POST /release`: the HTTP status sent and the new `stock`. -/
def release (productId : String) (stock : JSObject) : Nat × JSObject :=
  (200, stock.set productId (stock.get productId).inc)

end Inventory

/-! ## Payment service -/

namespace Payment

/-- The handler of `POST /charge`: the HTTP status sent and the new `balance`. -/
def charge (userId : String) (balance : JSObject) : Nat × JSObject :=
  if (balance.get userId).geHundred then
    (200, balance.set userId (balance.get userId).subHundred)
  else
    (400, balance)

/-- The handler of `POST /refund`: the HTTP status sent and the new `balance`. -/
def refund (userId : String) (balance : JSObject) : Nat × JSObject :=
  (200, balance.set userId (balance.get userId).addHundred)

end Payment

/-! ## Shipping service -/

namespace Shipping

/-- The handler of `POST /ship`: the HTTP status sent (the service keeps no state). -/
def ship (_userId _productId : String) : Nat := 200

end Shipping

/-! ## Order ledger -/

/-- The three values the handler writes to the `status` column. -/
inductive Status where
  | initiated
  | completed
  | failed
  deriving DecidableEq, Repr

/-- A row of `orders(id, user_id, product_id, status)`. -/
structure Order where
  id : Nat
  userId : String
  productId : String
  status : Status
  deriving DecidableEq, Repr

/-- The `orders` table: its rows and the next value of the `SERIAL` sequence. -/
structure Ledger where
  rows : List Order
  nextId : Nat
  deriving DecidableEq, Repr

namespace Ledger

/-- The statement `INSERT INTO orders(user_id, product_id, status) VALUES ($1, $2, $3)`. -/
def insertOrder (userId productId : String) (st : Status) (l : Ledger) : Ledger :=
  { rows := l.rows ++ [{ id := l.nextId, userId := userId, productId := productId, status := st }]
    nextId := l.nextId + 1 }

/-- The statement `UPDATE orders SET status = $1 WHERE user_id = $2 AND product_id = $3`. -/
def updateStatus (st : Status) (userId productId : String) (l : Ledger) : Ledger :=
  { l with rows := l.rows.map fun r =>
      if r.userId = userId ∧ r.productId = productId then { r with status := st } else r }

/-- The status of the row with the given id, when there is one. -/
def statusOf (l : Ledger) (id : Nat) : Option Status :=
  (l.rows.find? fun r => r.id == id).map Order.status

end Ledger

/-! ## The `/create-order` handler -/

/-- The awaited calls of the handler. -/
inductive Call where
  | insert
  | reserve
  | charge
  | ship
  | update (st : Status)
  | release
  | refund
  deriving DecidableEq, Repr

/-- What a run of the handler does that can be seen from outside: a call with whether
it resolved, or a response with its status code and body. -/
inductive Event where
  | call (c : Call) (ok : Bool)
  | respond (code : Nat) (body : String)
  deriving DecidableEq, Repr

/-- The body of the request. -/
structure Request where
  productId : String
  userId : String
  deriving DecidableEq, Repr

/-- What the handler calls: the two ledger statements and the five remote endpoints.
Each takes the state of the world to whether the awaited promise resolved and the new
state. -/
structure Backend (σ : Type) where
  insertOrder : String → String → Status → σ → Bool × σ
  updateStatus : Status → String → String → σ → Bool × σ
  reserve : String → σ → Bool × σ
  release : String → σ → Bool × σ
  charge : String → σ → Bool × σ
  refund : String → σ → Bool × σ
  ship : String → String → σ → Bool × σ

/-- A sequence of `await` statements inside one `try`: they run in order and the first
rejection leaves the block. Returns whether the block ran to its end, the state and the
calls made. -/
def runAwaits {σ : Type} : List (Call × (σ → Bool × σ)) → σ → Bool × σ × List Event
  | [], s => (true, s, [])
  | (c, f) :: rest, s =>
    match f s with
    | (true, s1) =>
      match runAwaits rest s1 with
      | (ok, s2, t) => (ok, s2, Event.call c true :: t)
    | (false, s1) => (false, s1, [Event.call c false])

/-- The awaited calls of the outer `try` block (lines 21 to 33). -/
def tryBlock {σ : Type} (b : Backend σ) (req : Request) : List (Call × (σ → Bool × σ)) :=
  [ (Call.insert, b.insertOrder req.userId req.productId Status.initiated),
    (Call.reserve, b.reserve req.productId),
    (Call.charge, b.charge req.userId),
    (Call.ship, b.ship req.userId req.productId),
    (Call.update Status.completed, b.updateStatus Status.completed req.userId req.productId) ]

/-- The awaited calls of the `try` nested in the `catch` block (lines 38 to 40). -/
def catchBlock {σ : Type} (b : Backend σ) (req : Request) : List (Call × (σ → Bool × σ)) :=
  [ (Call.release, b.release req.productId),
    (Call.refund, b.refund req.userId),
    (Call.update Status.failed, b.updateStatus Status.failed req.userId req.productId) ]

/-- The handler of `POST /create-order`: the final state and the trace of the run. -/
def createOrder {σ : Type} (b : Backend σ) (req : Request) (s : σ) : σ × List Event :=
  match runAwaits (tryBlock b req) s with
  | (true, s1, t1) => (s1, t1 ++ [Event.respond 200 "Order completed successfully."])
  | (false, s1, t1) =>
    match runAwaits (catchBlock b req) s1 with
    | (_, s2, t2) => (s2, t1 ++ t2 ++ [Event.respond 500 "Order failed. Compensation triggered."])

/-! ## Reading a trace -/

/-- The calls that are requests to a remote service. -/
def Call.isRemote : Call → Bool
  | Call.reserve | Call.charge | Call.ship | Call.release | Call.refund => true
  | _ => false

/-- The forward actions. -/
def Call.isForward : Call → Bool
  | Call.reserve | Call.charge | Call.ship => true
  | _ => false

/-- The compensating actions. -/
def Call.isCompensation : Call → Bool
  | Call.release | Call.refund => true
  | _ => false

/-- The calls of a trace, in order. -/
def callsOf (t : List Event) : List Call :=
  t.filterMap fun e => match e with
    | Event.call c _ => some c
    | Event.respond _ _ => none

/-- The remote calls of a trace, in order. -/
def remoteCalls (t : List Event) : List Call := (callsOf t).filter Call.isRemote

/-- The compensating calls of a trace, in order. -/
def compensationCalls (t : List Event) : List Call := (callsOf t).filter Call.isCompensation

/-- The statuses the run tried to write with `UPDATE`, in order. -/
def statusWrites (t : List Event) : List Status :=
  t.filterMap fun e => match e with
    | Event.call (Call.update st) _ => some st
    | _ => none

/-- The statuses the run did write: those of the `UPDATE` statements that resolved, in
order. -/
def statusWritten (t : List Event) : List Status :=
  t.filterMap fun e => match e with
    | Event.call (Call.update st) true => some st
    | _ => none

/-- The responses of a trace, in order. -/
def responses (t : List Event) : List (Nat × String) :=
  t.filterMap fun e => match e with
    | Event.respond code body => some (code, body)
    | Event.call _ _ => none

/-- The call was made in the run and resolved. -/
def succeeded (t : List Event) (c : Call) : Prop := Event.call c true ∈ t

/-- The call was made in the run and rejected. -/
def rejected (t : List Event) (c : Call) : Prop := Event.call c false ∈ t

/-- The call was made in the run. -/
def invoked (t : List Event) (c : Call) : Prop := c ∈ callsOf t

instance (t : List Event) (c : Call) : Decidable (succeeded t c) := by
  unfold succeeded; infer_instance

instance (t : List Event) (c : Call) : Decidable (rejected t c) := by
  unfold rejected; infer_instance

instance (t : List Event) (c : Call) : Decidable (invoked t c) := by
  unfold invoked; infer_instance

/-! ## The deployed backend -/

/-- The state of the four services: the two in-memory objects and the table. -/
structure World where
  stock : JSObject
  balance : JSObject
  ledger : Ledger
  deriving DecidableEq, Repr

/-- The state the services start in: `stock = { item123: 10 }`, `balance = { user123: 0 }`
and an empty table whose sequence starts at 1. -/
def World.initial : World :=
  { stock := [("item123", JSVal.num 10)]
    balance := [("user123", JSVal.num 0)]
    ledger := { rows := [], nextId := 1 } }

/-- The promise of `axios.post` resolves exactly on a 2xx status. -/
def axiosResolves (code : Nat) : Bool := decide (200 ≤ code ∧ code < 300)

/-- The services as deployed. `down c` says that call `c` does not reach its service
(connection refused, database unreachable): the promise rejects and nothing changes.
A call that is delivered runs the handler of the service. -/
def deployed (down : Call → Bool) : Backend World where
  insertOrder userId productId st w :=
    if down Call.insert then (false, w)
    else (true, { w with ledger := w.ledger.insertOrder userId productId st })
  updateStatus st userId productId w :=
    if down (Call.update st) then (false, w)
    else (true, { w with ledger := w.ledger.updateStatus st userId productId })
  reserve productId w :=
    if down Call.reserve then (false, w)
    else
      match Inventory.reserve productId w.stock with
      | (code, stock) => (axiosResolves code, { w with stock := stock })
  release productId w :=
    if down Call.release then (false, w)
    else
      match Inventory.release productId w.stock with
      | (code, stock) => (axiosResolves code, { w with stock := stock })
  charge userId w :=
    if down Call.charge then (false, w)
    else
      match Payment.charge userId w.balance with
      | (code, balance) => (axiosResolves code, { w with balance := balance })
  refund userId w :=
    if down Call.refund then (false, w)
    else
      match Payment.refund userId w.balance with
      | (code, balance) => (axiosResolves code, { w with balance := balance })
  ship userId productId w :=
    if down Call.ship then (false, w)
    else (axiosResolves (Shipping.ship userId productId), w)

/-- Every call is delivered. -/
def allDelivered : Call → Bool := fun _ => false

/-- A sequence of requests handled one after the other, every call delivered. -/
def handleAll (reqs : List Request) (w : World) : World :=
  reqs.foldl (fun w req => (createOrder (deployed allDelivered) req w).1) w

/-! ## States and requests used as concrete inputs -/

/-- A state in which an order can go through: the starting state with the account
`user123` credited with 100. -/
def World.funded : World :=
  { World.initial with balance := [("user123", JSVal.num 100)] }

/-- The request for product `item123` by account `user123`. -/
def sampleRequest : Request := { productId := "item123", userId := "user123" }

/-- Only the given call is not delivered. -/
def onlyDown (c : Call) : Call → Bool := fun d => decide (d = c)

/-- Only the two given calls are not delivered. -/
def bothDown (c d : Call) : Call → Bool := fun e => decide (e = c ∨ e = d)

/-! ## The shape of a run -/

/-- The outcomes a block of awaited calls can have: it stops at the first rejection or
runs to its end. -/
def possibleRuns : List Call → List (Bool × List Event)
  | [] => [(true, [])]
  | c :: cs =>
    (false, [Event.call c false]) ::
      (possibleRuns cs).map fun r => (r.1, Event.call c true :: r.2)

/-- The traces the handler can produce. -/
def possibleTraces : List (List Event) :=
  (possibleRuns [Call.insert, Call.reserve, Call.charge, Call.ship,
      Call.update Status.completed]).flatMap fun r1 =>
    if r1.1 then [r1.2 ++ [Event.respond 200 "Order completed successfully."]]
    else
      (possibleRuns [Call.release, Call.refund, Call.update Status.failed]).map fun r2 =>
        r1.2 ++ r2.2 ++ [Event.respond 500 "Order failed. Compensation triggered."]

/-- The five calls of the `try` block all resolved. -/
def allCommitted (t : List Event) : Prop :=
  succeeded t Call.insert ∧ succeeded t Call.reserve ∧ succeeded t Call.charge ∧
    succeeded t Call.ship ∧ succeeded t (Call.update Status.completed)

instance (t : List Event) : Decidable (allCommitted t) := by
  unfold allCommitted; infer_instance

/-! ## Every run has one of the possible shapes -/

theorem runAwaits_mem_possibleRuns {σ : Type} (acts : List (Call × (σ → Bool × σ))) (s : σ) :
    ((runAwaits acts s).1, (runAwaits acts s).2.2) ∈ possibleRuns (acts.map Prod.fst) := by
  induction acts generalizing s with
  | nil => simp [runAwaits, possibleRuns]
  | cons a rest ih =>
    obtain ⟨c, f⟩ := a
    rcases hf : f s with ⟨ok, s1⟩
    cases ok
    · simp [runAwaits, possibleRuns, hf]
    · have h := ih s1
      simp only [runAwaits, hf, List.map_cons, possibleRuns, List.mem_cons, List.mem_map]
      right
      exact ⟨_, h, rfl⟩

theorem createOrder_trace_mem {σ : Type} (b : Backend σ) (req : Request) (s : σ) :
    (createOrder b req s).2 ∈ possibleTraces := by
  have h1 := runAwaits_mem_possibleRuns (tryBlock b req) s
  unfold createOrder possibleTraces
  rcases hr : runAwaits (tryBlock b req) s with ⟨ok, s1, t1⟩
  rw [hr] at h1
  simp only [tryBlock, List.map_cons, List.map_nil] at h1
  cases ok
  · have h2 := runAwaits_mem_possibleRuns (catchBlock b req) s1
    rcases hc : runAwaits (catchBlock b req) s1 with ⟨ok2, s2, t2⟩
    rw [hc] at h2
    simp only [hc]
    simp only [catchBlock, List.map_cons, List.map_nil] at h2
    simp only [List.mem_flatMap]
    refine ⟨_, h1, ?_⟩
    simp only [Bool.false_eq_true, if_false, List.mem_map]
    exact ⟨_, h2, rfl⟩
  · simp only [List.mem_flatMap]
    refine ⟨_, h1, ?_⟩
    simp

/-! ## The claims -/

/-- C1 (the code at the failing input): in the starting state of the services, with
every call delivered, the request for `item123` by `user123` is answered 500, and the
balance of `user123`, 0 before the request, is 100 after it: the order is not undone,
an account that was never charged is refunded. -/
theorem createOrder_failed_order_credits_account :
    responses (createOrder (deployed allDelivered) sampleRequest World.initial).2
        = [(500, "Order failed. Compensation triggered.")] ∧
      rejected (createOrder (deployed allDelivered) sampleRequest World.initial).2 Call.charge ∧
      World.initial.balance.get "user123" = JSVal.num 0 ∧
      (createOrder (deployed allDelivered) sampleRequest World.initial).1.balance.get "user123"
        = JSVal.num 100 := by
  decide

/-- C2: when the insert, reserve, charge, ship and the update to completed all succeed,
the remote calls of the run are exactly reserve, charge, ship in that order, neither
release nor refund is invoked, and the only status written is completed. -/
theorem createOrder_happy_path {σ : Type} (b : Backend σ) (req : Request) (s : σ)
    (hi : succeeded (createOrder b req s).2 Call.insert)
    (hr : succeeded (createOrder b req s).2 Call.reserve)
    (hc : succeeded (createOrder b req s).2 Call.charge)
    (hs : succeeded (createOrder b req s).2 Call.ship)
    (hu : succeeded (createOrder b req s).2 (Call.update Status.completed)) :
    remoteCalls (createOrder b req s).2 = [Call.reserve, Call.charge, Call.ship] ∧
      ¬ invoked (createOrder b req s).2 Call.release ∧
      ¬ invoked (createOrder b req s).2 Call.refund ∧
      statusWrites (createOrder b req s).2 = [Status.completed] := by
  have hmem := createOrder_trace_mem b req s
  revert hi hr hc hs hu
  generalize (createOrder b req s).2 = t at hmem ⊢
  revert t
  decide

theorem createOrder_happy_path_witness :
    (succeeded (createOrder (deployed allDelivered) sampleRequest World.funded).2 Call.insert ∧
      succeeded (createOrder (deployed allDelivered) sampleRequest World.funded).2 Call.reserve ∧
      succeeded (createOrder (deployed allDelivered) sampleRequest World.funded).2 Call.charge ∧
      succeeded (createOrder (deployed allDelivered) sampleRequest World.funded).2 Call.ship ∧
      succeeded (createOrder (deployed allDelivered) sampleRequest World.funded).2
        (Call.update Status.completed)) ∧
    (remoteCalls (createOrder (deployed allDelivered) sampleRequest World.funded).2
        = [Call.reserve, Call.charge, Call.ship] ∧
      ¬ invoked (createOrder (deployed allDelivered) sampleRequest World.funded).2 Call.release ∧
      ¬ invoked (createOrder (deployed allDelivered) sampleRequest World.funded).2 Call.refund ∧
      statusWrites (createOrder (deployed allDelivered) sampleRequest World.funded).2
        = [Status.completed]) :=
  ⟨by decide,
    createOrder_happy_path (deployed allDelivered) sampleRequest World.funded
      (by decide) (by decide) (by decide) (by decide) (by decide)⟩

/-- C3 (the code at the failing inputs): in the starting state, with every call
delivered, the request for the unknown product `item999` has its reserve rejected and
still release and refund are invoked, leaving `stock.item999` at `NaN` and the balance
of `user123` at 100; and the request for `item123`, whose reserve succeeds and whose
charge is rejected, has refund invoked. -/
theorem createOrder_compensates_uncommitted_steps :
    (createOrder (deployed allDelivered) { productId := "item999", userId := "user123" }
        World.initial).2
      = [Event.call Call.insert true, Event.call Call.reserve false,
          Event.call Call.release true, Event.call Call.refund true,
          Event.call (Call.update Status.failed) true,
          Event.respond 500 "Order failed. Compensation triggered."] ∧
    (createOrder (deployed allDelivered) { productId := "item999", userId := "user123" }
        World.initial).1.stock.get "item999" = JSVal.nan ∧
    (createOrder (deployed allDelivered) { productId := "item999", userId := "user123" }
        World.initial).1.balance.get "user123" = JSVal.num 100 ∧
    (createOrder (deployed allDelivered) sampleRequest World.initial).2
      = [Event.call Call.insert true, Event.call Call.reserve true,
          Event.call Call.charge false,
          Event.call Call.release true, Event.call Call.refund true,
          Event.call (Call.update Status.failed) true,
          Event.respond 500 "Order failed. Compensation triggered."] := by
  decide

/-- C4 (counterexample): with the account funded and the ship call not delivered, the
insert, reserve and charge succeed, ship fails, both compensations succeed, and the
compensation calls are release then refund, not refund then release. With the update to
failed not delivered either, the same six conditions hold and no status is written: the
row of the order still reads initiated. -/
theorem createOrder_late_failure_not_reverse_order :
    (succeeded (createOrder (deployed (onlyDown Call.ship)) sampleRequest World.funded).2 Call.insert ∧
      succeeded (createOrder (deployed (onlyDown Call.ship)) sampleRequest World.funded).2 Call.reserve ∧
      succeeded (createOrder (deployed (onlyDown Call.ship)) sampleRequest World.funded).2 Call.charge ∧
      rejected (createOrder (deployed (onlyDown Call.ship)) sampleRequest World.funded).2 Call.ship ∧
      succeeded (createOrder (deployed (onlyDown Call.ship)) sampleRequest World.funded).2 Call.release ∧
      succeeded (createOrder (deployed (onlyDown Call.ship)) sampleRequest World.funded).2 Call.refund) ∧
    compensationCalls (createOrder (deployed (onlyDown Call.ship)) sampleRequest World.funded).2
      = [Call.release, Call.refund] ∧
    compensationCalls (createOrder (deployed (onlyDown Call.ship)) sampleRequest World.funded).2
      ≠ [Call.refund, Call.release] ∧
    (succeeded (createOrder (deployed (bothDown Call.ship (Call.update Status.failed))) sampleRequest
        World.funded).2 Call.insert ∧
      succeeded (createOrder (deployed (bothDown Call.ship (Call.update Status.failed))) sampleRequest
        World.funded).2 Call.reserve ∧
      succeeded (createOrder (deployed (bothDown Call.ship (Call.update Status.failed))) sampleRequest
        World.funded).2 Call.charge ∧
      rejected (createOrder (deployed (bothDown Call.ship (Call.update Status.failed))) sampleRequest
        World.funded).2 Call.ship ∧
      succeeded (createOrder (deployed (bothDown Call.ship (Call.update Status.failed))) sampleRequest
        World.funded).2 Call.release ∧
      succeeded (createOrder (deployed (bothDown Call.ship (Call.update Status.failed))) sampleRequest
        World.funded).2 Call.refund) ∧
    statusWritten (createOrder (deployed (bothDown Call.ship (Call.update Status.failed))) sampleRequest
        World.funded).2 = [] ∧
    (createOrder (deployed (bothDown Call.ship (Call.update Status.failed))) sampleRequest
        World.funded).1.ledger.statusOf 1 = some Status.initiated := by
  decide

/-- C4 (amended): when the insert, reserve and charge succeed, ship fails and the two
compensation calls succeed, the compensation calls of the run are exactly release
followed by refund, in that order, and the only status write issued is the update to
failed: when that update succeeds, failed is the one status written, and when it fails
no status is written. -/
theorem createOrder_late_failure_compensation {σ : Type} (b : Backend σ) (req : Request)
    (s : σ)
    (hi : succeeded (createOrder b req s).2 Call.insert)
    (hr : succeeded (createOrder b req s).2 Call.reserve)
    (hc : succeeded (createOrder b req s).2 Call.charge)
    (hs : rejected (createOrder b req s).2 Call.ship)
    (hrel : succeeded (createOrder b req s).2 Call.release)
    (href : succeeded (createOrder b req s).2 Call.refund) :
    compensationCalls (createOrder b req s).2 = [Call.release, Call.refund] ∧
      statusWrites (createOrder b req s).2 = [Status.failed] ∧
      (succeeded (createOrder b req s).2 (Call.update Status.failed) →
        statusWritten (createOrder b req s).2 = [Status.failed]) ∧
      (rejected (createOrder b req s).2 (Call.update Status.failed) →
        statusWritten (createOrder b req s).2 = []) := by
  have hmem := createOrder_trace_mem b req s
  revert hi hr hc hs hrel href
  generalize (createOrder b req s).2 = t at hmem ⊢
  revert t
  decide

theorem createOrder_late_failure_compensation_witness :
    (succeeded (createOrder (deployed (onlyDown Call.ship)) sampleRequest World.funded).2 Call.insert ∧
      succeeded (createOrder (deployed (onlyDown Call.ship)) sampleRequest World.funded).2 Call.reserve ∧
      succeeded (createOrder (deployed (onlyDown Call.ship)) sampleRequest World.funded).2 Call.charge ∧
      rejected (createOrder (deployed (onlyDown Call.ship)) sampleRequest World.funded).2 Call.ship ∧
      succeeded (createOrder (deployed (onlyDown Call.ship)) sampleRequest World.funded).2 Call.release ∧
      succeeded (createOrder (deployed (onlyDown Call.ship)) sampleRequest World.funded).2 Call.refund) ∧
    succeeded (createOrder (deployed (onlyDown Call.ship)) sampleRequest World.funded).2
      (Call.update Status.failed) ∧
    compensationCalls (createOrder (deployed (onlyDown Call.ship)) sampleRequest World.funded).2
      = [Call.release, Call.refund] ∧
    statusWritten (createOrder (deployed (onlyDown Call.ship)) sampleRequest World.funded).2
      = [Status.failed] ∧
    (createOrder (deployed (onlyDown Call.ship)) sampleRequest World.funded).1.ledger.statusOf 1
      = some Status.failed :=
  ⟨by decide, by decide,
    (createOrder_late_failure_compensation (deployed (onlyDown Call.ship)) sampleRequest
      World.funded (by decide) (by decide) (by decide) (by decide) (by decide)
      (by decide)).1,
    (createOrder_late_failure_compensation (deployed (onlyDown Call.ship)) sampleRequest
      World.funded (by decide) (by decide) (by decide) (by decide) (by decide)
      (by decide)).2.2.1 (by decide),
    by decide⟩

/-- C5 (the code at the failing input): in the starting state, with only the release
call not delivered, the insert succeeds, the charge is rejected, the release fails, the
handler answers 500 without writing any status, and the row it inserted still reads
initiated when it responds. -/
theorem createOrder_release_failure_leaves_initiated :
    (createOrder (deployed (onlyDown Call.release)) sampleRequest World.initial).2
      = [Event.call Call.insert true, Event.call Call.reserve true,
          Event.call Call.charge false, Event.call Call.release false,
          Event.respond 500 "Order failed. Compensation triggered."] ∧
    statusWrites (createOrder (deployed (onlyDown Call.release)) sampleRequest World.initial).2
      = [] ∧
    (createOrder (deployed (onlyDown Call.release)) sampleRequest World.initial).1.ledger.statusOf 1
      = some Status.initiated := by
  decide

/-- C6 (the code at the failing input): in the starting state, with only the insert not
delivered, the run still issues release and refund: the stock of `item123` goes from 10
to 11 and the balance of `user123` from 0 to 100, and no row exists. -/
theorem createOrder_insert_failure_still_compensates :
    (createOrder (deployed (onlyDown Call.insert)) sampleRequest World.initial).2
      = [Event.call Call.insert false,
          Event.call Call.release true, Event.call Call.refund true,
          Event.call (Call.update Status.failed) true,
          Event.respond 500 "Order failed. Compensation triggered."] ∧
    (createOrder (deployed (onlyDown Call.insert)) sampleRequest World.initial).1.stock.get "item123"
      = JSVal.num 11 ∧
    (createOrder (deployed (onlyDown Call.insert)) sampleRequest World.initial).1.balance.get
        "user123" = JSVal.num 100 ∧
    (createOrder (deployed (onlyDown Call.insert)) sampleRequest World.initial).1.ledger.rows
      = [] := by
  decide

/-- C7 (the code at the failing inputs): the same request handled repeatedly, every call
delivered. From the starting state the row of the first order reads failed after one
request, completed after two and failed again after three, and the third request also
turns the completed row of the second order to failed. From the funded state the first
order completes and the second request, which fails at charge, turns its row to failed. -/
theorem handleAll_rewrites_earlier_rows :
    (handleAll [sampleRequest] World.initial).ledger.statusOf 1 = some Status.failed ∧
    (handleAll [sampleRequest, sampleRequest] World.initial).ledger.statusOf 1
      = some Status.completed ∧
    (handleAll [sampleRequest, sampleRequest] World.initial).ledger.statusOf 2
      = some Status.completed ∧
    (handleAll [sampleRequest, sampleRequest, sampleRequest] World.initial).ledger.statusOf 1
      = some Status.failed ∧
    (handleAll [sampleRequest, sampleRequest, sampleRequest] World.initial).ledger.statusOf 2
      = some Status.failed ∧
    (handleAll [sampleRequest] World.funded).ledger.statusOf 1 = some Status.completed ∧
    (handleAll [sampleRequest, sampleRequest] World.funded).ledger.statusOf 1
      = some Status.failed := by
  decide

/-- C8 (the code at the failing input): with the account funded and only the update to
completed not delivered, the insert, reserve, charge and ship succeed, the update
fails, the caller is answered 500, and both release and refund are invoked: the stock
and the balance are back at their values before the request although the shipment was
scheduled, and the row of the order reads failed. -/
theorem createOrder_terminal_write_failure_compensates :
    (createOrder (deployed (onlyDown (Call.update Status.completed))) sampleRequest
        World.funded).2
      = [Event.call Call.insert true, Event.call Call.reserve true,
          Event.call Call.charge true, Event.call Call.ship true,
          Event.call (Call.update Status.completed) false,
          Event.call Call.release true, Event.call Call.refund true,
          Event.call (Call.update Status.failed) true,
          Event.respond 500 "Order failed. Compensation triggered."] ∧
    invoked (createOrder (deployed (onlyDown (Call.update Status.completed))) sampleRequest
        World.funded).2 Call.release ∧
    invoked (createOrder (deployed (onlyDown (Call.update Status.completed))) sampleRequest
        World.funded).2 Call.refund ∧
    World.funded.stock.get "item123" = JSVal.num 10 ∧
    World.funded.balance.get "user123" = JSVal.num 100 ∧
    (createOrder (deployed (onlyDown (Call.update Status.completed))) sampleRequest
        World.funded).1.stock.get "item123" = JSVal.num 10 ∧
    (createOrder (deployed (onlyDown (Call.update Status.completed))) sampleRequest
        World.funded).1.balance.get "user123" = JSVal.num 100 ∧
    (createOrder (deployed (onlyDown (Call.update Status.completed))) sampleRequest
        World.funded).1.ledger.statusOf 1 = some Status.failed := by
  decide

/-- C9: every run sends exactly one response, as its last action. It is 200 with body
"Order completed successfully." exactly when the insert, reserve, charge, ship and the
update to completed all succeeded. Otherwise it is 500 with body "Order failed.
Compensation triggered.", whatever the outcome of the compensation calls and of the
update to failed, and it comes after the compensation sequence was attempted: release
was invoked, refund was invoked if release succeeded, and the update to failed was
invoked if refund succeeded. -/
theorem createOrder_response {σ : Type} (b : Backend σ) (req : Request) (s : σ) :
    (responses (createOrder b req s).2 = [(200, "Order completed successfully.")] ↔
        allCommitted (createOrder b req s).2) ∧
      (allCommitted (createOrder b req s).2 →
        (createOrder b req s).2.getLast?
          = some (Event.respond 200 "Order completed successfully.")) ∧
      (¬ allCommitted (createOrder b req s).2 →
        responses (createOrder b req s).2 = [(500, "Order failed. Compensation triggered.")] ∧
        (createOrder b req s).2.getLast?
          = some (Event.respond 500 "Order failed. Compensation triggered.") ∧
        invoked (createOrder b req s).2 Call.release ∧
        (succeeded (createOrder b req s).2 Call.release →
          invoked (createOrder b req s).2 Call.refund) ∧
        (succeeded (createOrder b req s).2 Call.refund →
          invoked (createOrder b req s).2 (Call.update Status.failed))) := by
  have hmem := createOrder_trace_mem b req s
  generalize (createOrder b req s).2 = t at hmem ⊢
  revert t
  decide

theorem createOrder_response_witness :
    responses (createOrder (deployed allDelivered) sampleRequest World.initial).2
        = [(500, "Order failed. Compensation triggered.")] ∧
      responses (createOrder (deployed allDelivered) sampleRequest World.funded).2
        = [(200, "Order completed successfully.")] :=
  ⟨((createOrder_response (deployed allDelivered) sampleRequest World.initial).2.2
      (by decide)).1,
    (createOrder_response (deployed allDelivered) sampleRequest World.funded).1.2 (by decide)⟩

/-- C10: in every run, charge is invoked only after reserve succeeded, ship is invoked
only after reserve and then charge succeeded, each of reserve, charge and ship is
invoked at most once, and no forward action is invoked after a compensation call. -/
theorem createOrder_forward_steps {σ : Type} (b : Backend σ) (req : Request) (s : σ) :
    (∀ ok : Bool, Event.call Call.charge ok ∈ (createOrder b req s).2 →
        List.Sublist [Event.call Call.reserve true, Event.call Call.charge ok]
          (createOrder b req s).2) ∧
      (∀ ok : Bool, Event.call Call.ship ok ∈ (createOrder b req s).2 →
        List.Sublist
          [Event.call Call.reserve true, Event.call Call.charge true, Event.call Call.ship ok]
          (createOrder b req s).2) ∧
      (callsOf (createOrder b req s).2).count Call.reserve ≤ 1 ∧
      (callsOf (createOrder b req s).2).count Call.charge ≤ 1 ∧
      (callsOf (createOrder b req s).2).count Call.ship ≤ 1 ∧
      (callsOf (createOrder b req s).2).Pairwise
        (fun c d => c.isCompensation = true → d.isForward = false) := by
  have hmem := createOrder_trace_mem b req s
  generalize (createOrder b req s).2 = t at hmem ⊢
  revert t
  decide

theorem createOrder_forward_steps_witness :
    List.Sublist [Event.call Call.reserve true, Event.call Call.charge false]
        (createOrder (deployed allDelivered) sampleRequest World.initial).2 ∧
      (callsOf (createOrder (deployed allDelivered) sampleRequest World.initial).2).count
        Call.ship = 0 :=
  ⟨(createOrder_forward_steps (deployed allDelivered) sampleRequest World.initial).1 false
      (by decide),
    by decide⟩

/-! ## Further properties of the handler -/

/-- In every run, each forward call is issued only after the insert succeeded. -/
theorem createOrder_forward_after_insert {σ : Type} (b : Backend σ) (req : Request) (s : σ) :
    (∀ ok : Bool, Event.call Call.reserve ok ∈ (createOrder b req s).2 →
        List.Sublist [Event.call Call.insert true, Event.call Call.reserve ok]
          (createOrder b req s).2) ∧
      (∀ ok : Bool, Event.call Call.charge ok ∈ (createOrder b req s).2 →
        List.Sublist [Event.call Call.insert true, Event.call Call.charge ok]
          (createOrder b req s).2) ∧
      (∀ ok : Bool, Event.call Call.ship ok ∈ (createOrder b req s).2 →
        List.Sublist [Event.call Call.insert true, Event.call Call.ship ok]
          (createOrder b req s).2) := by
  have hmem := createOrder_trace_mem b req s
  generalize (createOrder b req s).2 = t at hmem ⊢
  revert t
  decide

end Saga
